import Mathlib

/-!
Verification development for the reflection engine of the ChatPPT
repository (`src/reflection_engine.py`, with configuration defaults and
validation from `src/config.py`).

Modelling conventions.
* Numeric scores are modelled as exact rationals (`ℚ`); the Python code
  uses IEEE doubles, but every comparison exercised here (`>= 9`,
  differences against a `0.2` threshold on one-decimal scores) has the
  same outcome in both number systems.
* The oracle (the `ChatOpenAI` client) together with the JSON decoding
  layer (`json.loads` after `_clean_json_string`) sits behind an external
  library boundary.  A single oracle invocation is modelled by its
  observable outcome: the response decoded as a structured record, the
  response failed to decode (a `json.JSONDecodeError`, keeping the raw
  text), or the call raised a transport error.  Stage responses are
  indexed by the cycle counter `iterations`, which is constant across the
  three calls of one cycle because the Evaluator increments it only at
  commit time.
* Python dict truthiness matters in `_should_continue`
  (`if state.evaluation:`): a parsed record is truthy iff it is a
  non-empty mapping, and the parse-failure sentinel
  `{"error": ..., "raw_content": ...}` is always truthy.  Parsed
  evaluation records therefore carry, besides the optional numeric
  `score` entry, the number of their remaining keys.
* Indexing a missing key (`state.evaluation['score']`) is a Python
  `KeyError`; fallible steps return `Except EngineError`.
* The driver `reflect_and_improve` (lines 69-96) consumes `graph.stream`,
  whose yields are `{node_name: update}` dictionaries.  Its consumer
  loop reads `output['analyze']['iterations']` in an eagerly evaluated
  debug f-string on every yield (line 78); the improve yield lacks the
  `analyze` key, so the loop raises `KeyError` during cycle 1 of every
  run, the evaluate node and `_should_continue` never execute, and since
  `'state'` is never a key of a yield the `final_state` variable keeps
  its initial value.  The catch-all `except` at line 91 absorbs that
  `KeyError` as well as any transport error raised inside a node, and
  the method returns `_extract_result(initial_state)` on every input.
  `consumeStream` embeds exactly this behaviour.
-/

/-- Errors that can escape a stage or the convergence check:
a transport/timeout failure of the oracle client, or a `KeyError`
from indexing a missing `score` key. -/
inductive EngineError where
  | transportFailure
  | keyError
deriving DecidableEq, Repr

/-- Observable outcome of one oracle invocation followed by
`_clean_json_string` + `json.loads`: a decoded structured record, a
decode failure carrying the raw response text, or a transport error
raised by the client call itself. -/
inductive OracleReply (α : Type) where
  | ok (record : α)
  | malformed (rawText : String)
  | transportFailure
deriving DecidableEq, Repr

/-- Parsed Analyzer record.  `_analyze_content` stores the decoded JSON
object wholesale and nothing later inspects its fields, so it is
modelled as an opaque key/value list. -/
inductive AnalysisRecord where
  | parsed (fields : List (String × String))
  | parseFailed (rawContent : String)
deriving DecidableEq, Repr

/-- Fields of a decoded Improver response that `_improve_content`
reads: `improvement_data.get('improved_content', '')`.  `none` models a
record without that key. -/
structure ImproveFields where
  improved_content : Option String
deriving DecidableEq, Repr

/-- Fields of a decoded Evaluator response: the optional numeric
`score` entry and the number of further keys (which only matters for
dict truthiness in `_should_continue`). -/
structure EvalFields where
  score : Option ℚ
  extraKeys : Nat
deriving DecidableEq, Repr

/-- `state.evaluation` after an Evaluator step: the decoded record, or
the sentinel `{"error": "Failed to parse JSON", "raw_content": ...}`. -/
inductive EvalRecord where
  | parsed (score : Option ℚ) (extraKeys : Nat)
  | parseFailed (rawContent : String)
deriving DecidableEq, Repr

/-- Python truthiness of the evaluation dict: a mapping is truthy iff
non-empty; the two-key sentinel is always truthy. -/
def EvalRecord.isTruthy : EvalRecord → Bool
  | .parsed score extraKeys => score.isSome || extraKeys != 0
  | .parseFailed _ => true

/-- The numeric value behind the `score` key, when that key exists.
The sentinel has keys `error` and `raw_content` only. -/
def EvalRecord.scoreValue : EvalRecord → Option ℚ
  | .parsed s _ => s
  | .parseFailed _ => none

/-- `ReflectionState` of `reflection_engine.py` (pydantic model):
current content, latest analysis, pending improved content, latest
evaluation, completed-cycle count, and the previous cycle's score. -/
structure ReflectionState where
  content : String
  analysis : Option AnalysisRecord
  improved_content : Option String
  evaluation : Option EvalRecord
  iterations : Nat
  previous_score : ℚ
deriving DecidableEq, Repr

/-- `ReflectionOutput`: the result returned to the caller of
`reflect_and_improve`. -/
structure ReflectionOutput where
  final_content : String
  iterations : Nat
  final_score : ℚ
deriving DecidableEq, Repr

/-- `ReflectionConfig` of `config.py`: iteration bounds and the
improvement threshold (defaults 7 / 3 / 0.2; `validate_config` enforces
`0 < min_iterations <= max_iterations` and `0 < threshold < 1`). -/
structure ReflectionConfig where
  max_iterations : Nat
  min_iterations : Nat
  improvement_threshold : ℚ
deriving DecidableEq, Repr

/-- A deterministic oracle: for each cycle index (the value of
`iterations` while the cycle runs) the outcome of the Analyzer,
Improver and Evaluator invocations of that cycle. -/
structure Oracle where
  analyzeReply : Nat → OracleReply (List (String × String))
  improveReply : Nat → OracleReply ImproveFields
  evaluateReply : Nat → OracleReply EvalFields

/-- Initial state built by `reflect_and_improve`:
`ReflectionState(content=initial_content, iterations=0)` with pydantic
defaults for the remaining fields. -/
def initState (initialContent : String) : ReflectionState :=
  { content := initialContent
    analysis := none
    improved_content := none
    evaluation := none
    iterations := 0
    previous_score := 0 }

/-- `_analyze_content`: invoke the oracle on the analysis prompt; store
the decoded record in `analysis`, or the parse-failure sentinel.  No
other field is touched. -/
def analyzeStep (reply : OracleReply (List (String × String)))
    (st : ReflectionState) : Except EngineError ReflectionState :=
  match reply with
  | .transportFailure => .error .transportFailure
  | .ok record => .ok { st with analysis := some (.parsed record) }
  | .malformed raw => .ok { st with analysis := some (.parseFailed raw) }

/-- `_improve_content`: invoke the oracle on the improvement prompt; on
decode success set `improved_content` to the record's
`improved_content` field with `''` as default
(`improvement_data.get('improved_content', '')`); on decode failure
fall back to the raw response text verbatim. -/
def improveStep (reply : OracleReply ImproveFields)
    (st : ReflectionState) : Except EngineError ReflectionState :=
  match reply with
  | .transportFailure => .error .transportFailure
  | .ok record =>
      .ok { st with improved_content := some (record.improved_content.getD "") }
  | .malformed raw => .ok { st with improved_content := some raw }

/-- `_evaluate_improvement`: invoke the oracle on the evaluation
prompt; store the decoded record or the sentinel in `evaluation`; then
commit unconditionally: `iterations += 1` and
`content = state.improved_content`.  (In the pipeline the Improver has
always set `improved_content`; the unreachable `none` case keeps
`content`.) -/
def evaluateStep (reply : OracleReply EvalFields)
    (st : ReflectionState) : Except EngineError ReflectionState :=
  match reply with
  | .transportFailure => .error .transportFailure
  | .ok record =>
      .ok { st with
              evaluation := some (.parsed record.score record.extraKeys)
              iterations := st.iterations + 1
              content := st.improved_content.getD st.content }
  | .malformed raw =>
      .ok { st with
              evaluation := some (.parseFailed raw)
              iterations := st.iterations + 1
              content := st.improved_content.getD st.content }

/-- `_should_continue`: the convergence policy.  Returns the decision
together with the state (whose only possible change is
`previous_score := current_score`), or a `KeyError` when the truthy
evaluation dict lacks a `score` key. -/
def shouldContinue (cfg : ReflectionConfig) (st : ReflectionState) :
    Except EngineError (Bool × ReflectionState) :=
  if cfg.max_iterations ≤ st.iterations then
    .ok (false, st)
  else
    match st.evaluation with
    | some ev =>
        if ev.isTruthy then
          match ev.scoreValue with
          | none => .error .keyError
          | some current =>
              if 9 ≤ current then
                .ok (false, st)
              else if cfg.min_iterations ≤ st.iterations ∧
                  current - st.previous_score < cfg.improvement_threshold then
                .ok (false, st)
              else
                .ok (true, { st with previous_score := current })
        else
          .ok (true, st)
    | none => .ok (true, st)

/-- `_extract_result`: `final_score` is
`float(state.evaluation.get('score', 0.0))` when `evaluation` is a
dict, else `0.0`. -/
def extractResult (st : ReflectionState) : ReflectionOutput :=
  { final_content := st.content
    iterations := st.iterations
    final_score :=
      match st.evaluation with
      | some ev => ev.scoreValue.getD 0
      | none => 0 }

/-- The exception on which the shipped consumer loop of
`reflect_and_improve` (lines 75-88) ends. -/
inductive RunExit where
  | transportAtAnalyze
  | transportAtImprove
  | consumerKeyError
deriving DecidableEq, Repr

/-- The stream-consumer loop of `reflect_and_improve`, as shipped.
`graph.stream` yields `{node_name: update}` dictionaries (updates
mode), lazily: a node runs when the loop requests the next yield.
The debug f-string at line 78 evaluates `output['analyze']['iterations']`
on every yield: the analyze yield passes, but processing the improve
yield raises `KeyError: 'analyze'`, so the evaluate node and
`_should_continue` are never reached in any run.  If the analyze (resp.
improve) node's oracle call raises a transport error, the generator
raises there instead, before (resp. after) the improve call is made.
`'state'` is never a key of a yield, so the `final_state` variable
(line 76, reassigned only at line 82) keeps its initial value in every
branch. -/
def consumeStream (o : Oracle) (st0 : ReflectionState) :
    RunExit × ReflectionState :=
  match analyzeStep (o.analyzeReply st0.iterations) st0 with
  | .error _ => (.transportAtAnalyze, st0)
  | .ok st1 =>
      match improveStep (o.improveReply st1.iterations) st1 with
      | .error _ => (.transportAtImprove, st0)
      | .ok _ => (.consumerKeyError, st0)

/-- `reflect_and_improve`: build the initial state, consume the stream
until its loop dies (which happens during cycle 1 in every run, see
`consumeStream`), and let the catch-all `except` (line 91) absorb the
exception — transport error and consumer `KeyError` alike.  Line 96
then returns `_extract_result(final_state)`; since `final_state` is
never reassigned, that is the initial state's extraction.  The
configuration is held by the engine but plays no role in this method. -/
def reflectAndImprove (o : Oracle) (_cfg : ReflectionConfig)
    (initialContent : String) : ReflectionOutput :=
  extractResult (consumeStream o (initState initialContent)).2

/-- Default configuration of `config.py`
(`max_iterations=7, min_iterations=3, improvement_threshold=0.2`). -/
def defaultConfig : ReflectionConfig :=
  { max_iterations := 7, min_iterations := 3, improvement_threshold := mkRat 2 10 }

instance {ε α : Type} [DecidableEq ε] [DecidableEq α] : DecidableEq (Except ε α) :=
  fun x y =>
    match x, y with
    | .ok a, .ok b =>
        if h : a = b then isTrue (congrArg Except.ok h)
        else isFalse (fun hc => h (Except.ok.inj hc))
    | .error a, .error b =>
        if h : a = b then isTrue (congrArg Except.error h)
        else isFalse (fun hc => h (Except.error.inj hc))
    | .ok _, .error _ => isFalse (fun hc => Except.noConfusion hc)
    | .error _, .ok _ => isFalse (fun hc => Except.noConfusion hc)

def oracle10 : Oracle where
  analyzeReply _ := .ok []
  improveReply _ := .ok { improved_content := some "draft" }
  evaluateReply _ := .ok { score := some 10, extraKeys := 0 }

def contentScriptQ : Nat → String
  | 0 => "c1"
  | _ => "c2"

def oracleQuality : Oracle where
  analyzeReply _ := .ok []
  improveReply n := .ok { improved_content := some (contentScriptQ n) }
  evaluateReply n := .ok { score := some (if n = 0 then 5 else mkRat 92 10), extraKeys := 0 }

def contentScriptD : Nat → String
  | 0 => "c1"
  | 1 => "c2"
  | _ => "c3"

def scoreScriptD : Nat → ℚ
  | 0 => 5
  | 1 => 6
  | _ => mkRat 61 10

def oracleDiminishing : Oracle where
  analyzeReply _ := .ok []
  improveReply n := .ok { improved_content := some (contentScriptD n) }
  evaluateReply n := .ok { score := some (scoreScriptD n), extraKeys := 0 }

def oracleLateFail : Oracle where
  analyzeReply _ := .ok []
  improveReply n := .ok { improved_content := some (contentScriptQ n) }
  evaluateReply n := if n = 0 then .ok { score := some 5, extraKeys := 0 } else .malformed "not json"

def cfgTwo : ReflectionConfig :=
  { max_iterations := 2, min_iterations := 1, improvement_threshold := mkRat 2 10 }

def oracleDown : Oracle where
  analyzeReply _ := .transportFailure
  improveReply _ := .transportFailure
  evaluateReply _ := .transportFailure

def oracleEvalFail : Oracle where
  analyzeReply _ := .ok []
  improveReply _ := .ok { improved_content := some "c1" }
  evaluateReply _ := .malformed "oops"

/-- Concrete states used to instantiate theorems with hypotheses. -/
def stateAfterEvalParseFailure : ReflectionState :=
  { content := "c1", analysis := some (.parsed []), improved_content := some "c1",
    evaluation := some (.parseFailed "oops"), iterations := 1, previous_score := 0 }

def stQuality92 : ReflectionState :=
  { content := "c1", analysis := none, improved_content := some "c1",
    evaluation := some (.parsed (some (mkRat 92 10)) 0), iterations := 2,
    previous_score := 5 }

def stDim61 : ReflectionState :=
  { content := "c3", analysis := none, improved_content := some "c3",
    evaluation := some (.parsed (some (mkRat 61 10)) 0), iterations := 3,
    previous_score := 6 }

def stContinue5 : ReflectionState :=
  { content := "c1", analysis := none, improved_content := some "c1",
    evaluation := some (.parsed (some 5) 0), iterations := 1, previous_score := 0 }

/-- Intermediate states of one cycle on `initState "c0"` whose Improver
and Evaluator responses both fail to decode. -/
def cycleSt1 : ReflectionState :=
  { initState "c0" with analysis := some (.parsed []) }

def cycleSt2 : ReflectionState :=
  { cycleSt1 with improved_content := some "raw improve" }

def cycleSt3 : ReflectionState :=
  { cycleSt2 with
      evaluation := some (.parseFailed "raw eval")
      iterations := 1
      content := "raw improve" }

/-- A state at the exhausted budget whose evaluation is the
parse-failure sentinel: exercises the budget check firing before the
score lookup. -/
def stBudget7 : ReflectionState :=
  { content := "c7", analysis := none, improved_content := some "c7",
    evaluation := some (.parseFailed "oops"), iterations := 7, previous_score := 5 }

/-- A committed state whose latest evaluation parse-failed after an
earlier cycle scored 5.0: input vector for `_extract_result`. -/
def lateFailCommittedState : ReflectionState :=
  { content := "c2", analysis := some (.parsed []), improved_content := some "c2",
    evaluation := some (.parseFailed "not json"), iterations := 2,
    previous_score := 5 }

/-- An oracle whose cycle-1 Improver call fails with a transport error
(the Analyzer call succeeds). -/
def oracleImproveDown : Oracle where
  analyzeReply _ := .ok []
  improveReply _ := .transportFailure
  evaluateReply _ := .transportFailure

lemma analyzeStep_frame (reply : OracleReply (List (String × String)))
    (st st' : ReflectionState) (h : analyzeStep reply st = .ok st') :
    st'.content = st.content ∧ st'.improved_content = st.improved_content ∧
    st'.evaluation = st.evaluation ∧ st'.iterations = st.iterations ∧
    st'.previous_score = st.previous_score := by
  cases reply with
  | ok record =>
      simp only [analyzeStep, Except.ok.injEq] at h
      subst h
      exact ⟨rfl, rfl, rfl, rfl, rfl⟩
  | malformed raw =>
      simp only [analyzeStep, Except.ok.injEq] at h
      subst h
      exact ⟨rfl, rfl, rfl, rfl, rfl⟩
  | transportFailure => exact Except.noConfusion h

lemma improveStep_ok (reply : OracleReply ImproveFields)
    (st st' : ReflectionState) (h : improveStep reply st = .ok st') :
    st'.content = st.content ∧ st'.analysis = st.analysis ∧
    st'.evaluation = st.evaluation ∧ st'.iterations = st.iterations ∧
    st'.previous_score = st.previous_score ∧
    ∃ ic, st'.improved_content = some ic := by
  cases reply with
  | ok record =>
      simp only [improveStep, Except.ok.injEq] at h
      subst h
      exact ⟨rfl, rfl, rfl, rfl, rfl, _, rfl⟩
  | malformed raw =>
      simp only [improveStep, Except.ok.injEq] at h
      subst h
      exact ⟨rfl, rfl, rfl, rfl, rfl, _, rfl⟩
  | transportFailure => exact Except.noConfusion h

lemma evaluateStep_ok (reply : OracleReply EvalFields)
    (st st' : ReflectionState) (h : evaluateStep reply st = .ok st') :
    st'.analysis = st.analysis ∧ st'.improved_content = st.improved_content ∧
    st'.previous_score = st.previous_score ∧
    st'.iterations = st.iterations + 1 ∧
    st'.content = st.improved_content.getD st.content := by
  cases reply with
  | ok record =>
      simp only [evaluateStep, Except.ok.injEq] at h
      subst h
      exact ⟨rfl, rfl, rfl, rfl, rfl⟩
  | malformed raw =>
      simp only [evaluateStep, Except.ok.injEq] at h
      subst h
      exact ⟨rfl, rfl, rfl, rfl, rfl⟩
  | transportFailure => exact Except.noConfusion h

lemma shouldContinue_ok (cfg : ReflectionConfig) (st : ReflectionState)
    (b : Bool) (st' : ReflectionState)
    (h : shouldContinue cfg st = .ok (b, st')) :
    st'.content = st.content ∧ st'.analysis = st.analysis ∧
    st'.improved_content = st.improved_content ∧
    st'.evaluation = st.evaluation ∧ st'.iterations = st.iterations ∧
    (b = true → st.iterations < cfg.max_iterations) := by
  unfold shouldContinue at h
  split at h
  · simp only [Except.ok.injEq, Prod.mk.injEq] at h
    obtain ⟨hb, rfl⟩ := h
    exact ⟨rfl, rfl, rfl, rfl, rfl, fun ht => Bool.noConfusion (hb.trans ht)⟩
  · rename_i hmax
    have hlt : st.iterations < cfg.max_iterations := Nat.lt_of_not_le hmax
    split at h
    · rename_i ev
      split at h
      · split at h
        · exact Except.noConfusion h
        · rename_i current hscore
          split at h
          · simp only [Except.ok.injEq, Prod.mk.injEq] at h
            obtain ⟨hb, rfl⟩ := h
            exact ⟨rfl, rfl, rfl, rfl, rfl, fun _ => hlt⟩
          · split at h
            · simp only [Except.ok.injEq, Prod.mk.injEq] at h
              obtain ⟨hb, rfl⟩ := h
              exact ⟨rfl, rfl, rfl, rfl, rfl, fun _ => hlt⟩
            · simp only [Except.ok.injEq, Prod.mk.injEq] at h
              obtain ⟨hb, rfl⟩ := h
              exact ⟨rfl, rfl, rfl, rfl, rfl, fun _ => hlt⟩
      · simp only [Except.ok.injEq, Prod.mk.injEq] at h
        obtain ⟨hb, rfl⟩ := h
        exact ⟨rfl, rfl, rfl, rfl, rfl, fun _ => hlt⟩
    · simp only [Except.ok.injEq, Prod.mk.injEq] at h
      obtain ⟨hb, rfl⟩ := h
      exact ⟨rfl, rfl, rfl, rfl, rfl, fun _ => hlt⟩

lemma analyzeStep_error (reply : OracleReply (List (String × String)))
    (st : ReflectionState) (e : EngineError)
    (h : analyzeStep reply st = .error e) : reply = .transportFailure := by
  cases reply with
  | ok record => exact Except.noConfusion h
  | malformed raw => exact Except.noConfusion h
  | transportFailure => rfl

lemma consumeStream_state (o : Oracle) (st0 : ReflectionState) :
    (consumeStream o st0).2 = st0 := by
  unfold consumeStream
  split
  · rfl
  · split
    · rfl
    · rfl

lemma reflectAndImprove_eq (o : Oracle) (cfg : ReflectionConfig)
    (c : String) :
    reflectAndImprove o cfg c =
      { final_content := c, iterations := 0, final_score := 0 } := by
  show extractResult (consumeStream o (initState c)).2 =
    { final_content := c, iterations := 0, final_score := 0 }
  rw [consumeStream_state]
  rfl

lemma consumeStream_analyze_fail (o : Oracle) (st0 : ReflectionState)
    (h : o.analyzeReply st0.iterations = .transportFailure) :
    (consumeStream o st0).1 = .transportAtAnalyze := by
  unfold consumeStream
  rw [h]
  rfl

lemma consumeStream_improve_fail (o : Oracle) (st0 : ReflectionState)
    (h1 : o.analyzeReply st0.iterations ≠ .transportFailure)
    (h2 : o.improveReply st0.iterations = .transportFailure) :
    (consumeStream o st0).1 = .transportAtImprove := by
  unfold consumeStream
  split
  · rename_i e hA
    exact absurd (analyzeStep_error _ _ _ hA) h1
  · rename_i st1 hA
    split
    · rfl
    · rename_i st2 hI
      have e1 : st1.iterations = st0.iterations :=
        (analyzeStep_frame _ _ _ hA).2.2.2.1
      rw [e1, h2] at hI
      exact Except.noConfusion hI

/-- C1: the hard iteration budget.  For every oracle, configuration and
initial content, the returned `iterations` count never exceeds
`max_iterations` — degenerately so: the shipped driver's consumer loop
dies during cycle 1, and the count it reports is always 0.  And the
policy's first check is the budget: whenever
`iterations >= max_iterations`, `_should_continue` stops before any
score-based rule (in particular without indexing the evaluation
record, so even a score-less sentinel does not raise there). -/
theorem hard_budget_c1 (o : Oracle) (cfg : ReflectionConfig) (c : String) :
    (reflectAndImprove o cfg c).iterations = 0 ∧
    (reflectAndImprove o cfg c).iterations ≤ cfg.max_iterations ∧
    (∀ st : ReflectionState, cfg.max_iterations ≤ st.iterations →
      shouldContinue cfg st = .ok (false, st)) := by
  have h0 : (reflectAndImprove o cfg c).iterations = 0 := by
    rw [reflectAndImprove_eq]
  refine ⟨h0, by omega, ?_⟩
  intro st hst
  unfold shouldContinue
  rw [if_pos hst]

/-- Witness for C1: the budget check at an exhausted-budget state whose
evaluation is the score-less sentinel. -/
theorem hard_budget_c1_witness :
    defaultConfig.max_iterations ≤ stBudget7.iterations ∧
    shouldContinue defaultConfig stBudget7 = .ok (false, stBudget7) ∧
    (reflectAndImprove oracle10 defaultConfig "draft").iterations ≤
      defaultConfig.max_iterations :=
  ⟨by decide,
   (hard_budget_c1 oracle10 defaultConfig "draft").2.2 stBudget7 (by decide),
   (hard_budget_c1 oracle10 defaultConfig "draft").2.1⟩

/-- C2: at a committed state whose evaluation is the parse-failure
sentinel (`iterations = 1 > 0`, budget not reached), the source's
`_should_continue` raises a `KeyError` from `state.evaluation['score']`
instead of returning continue: the sentinel dict is truthy and lacks a
`score` key (first conjunct).  In the shipped driver the policy is in
fact never consulted at all — the consumer loop crashes during cycle 1
— and the caller of reflect receives the normal degenerate output
`("c0", 0, 0.0)` (second conjunct), so nothing is ever raised to the
caller. -/
theorem eval_parse_failure_c2 :
    shouldContinue defaultConfig stateAfterEvalParseFailure = .error .keyError ∧
    reflectAndImprove oracleEvalFail defaultConfig "c0" =
      { final_content := "c0", iterations := 0, final_score := 0 } := by
  refine ⟨by with_unfolding_all decide, by decide⟩

/-- C3: the quality gate.  The policy itself is correctly implemented:
at any state below the budget whose evaluation carries a numeric score
`>= 9`, `_should_continue` stops with the `min_iterations` floor never
consulted (first conjunct).  But the claimed scripted run (scores `5.0`
then `9.2` under the default bounds, expected to terminate after
cycle 2 with `totalIterations = 2`, `finalScore = 9.2`) does not
happen: the shipped driver's consumer loop crashes during cycle 1
before any evaluation, and `reflect_and_improve` returns
`("c0", 0, 0.0)` (second conjunct). -/
theorem quality_gate_c3 (cfg : ReflectionConfig) (st : ReflectionState)
    (q : ℚ) (extraKeys : Nat)
    (hit : st.iterations < cfg.max_iterations)
    (hev : st.evaluation = some (.parsed (some q) extraKeys))
    (hq : 9 ≤ q) :
    shouldContinue cfg st = .ok (false, st) ∧
    reflectAndImprove oracleQuality defaultConfig "c0" =
      { final_content := "c0", iterations := 0, final_score := 0 } := by
  constructor
  · unfold shouldContinue
    rw [if_neg (by omega), hev]
    simp [EvalRecord.isTruthy, EvalRecord.scoreValue, hq]
  · decide

/-- Witness for C3 at a concrete state with score `9.2` and
`iterations = 2` below the floor `min_iterations = 3`. -/
theorem quality_gate_c3_witness :
    (stQuality92.iterations < defaultConfig.max_iterations ∧
     stQuality92.evaluation = some (.parsed (some (mkRat 92 10)) 0) ∧
     (9 : ℚ) ≤ mkRat 92 10) ∧
    (shouldContinue defaultConfig stQuality92 = .ok (false, stQuality92) ∧
     reflectAndImprove oracleQuality defaultConfig "c0" =
      { final_content := "c0", iterations := 0, final_score := 0 }) :=
  ⟨⟨by decide, by decide, by with_unfolding_all decide⟩,
   quality_gate_c3 defaultConfig stQuality92 (mkRat 92 10) 0 (by decide)
     (by decide) (by with_unfolding_all decide)⟩

/-- C4: diminishing returns.  The policy itself is correctly
implemented: at any state below the budget with a valid score `< 9`,
once `iterations >= min_iterations` and the gain over `previous_score`
is below the threshold it stops; otherwise it records
`previous_score := score` and continues (first two conjuncts).  But
the claimed scripted run (scores `5.0, 6.0, 6.1` under the default
bounds, expected to stop after cycle 3 with `totalIterations = 3`,
`finalScore = 6.1`) does not happen: the shipped driver's consumer
loop crashes during cycle 1 and `reflect_and_improve` returns
`("c0", 0, 0.0)` (third conjunct). -/
theorem diminishing_returns_c4 (cfg : ReflectionConfig)
    (st : ReflectionState) (q : ℚ) (extraKeys : Nat)
    (hit : st.iterations < cfg.max_iterations)
    (hev : st.evaluation = some (.parsed (some q) extraKeys))
    (hq : q < 9) :
    (cfg.min_iterations ≤ st.iterations →
      q - st.previous_score < cfg.improvement_threshold →
      shouldContinue cfg st = .ok (false, st)) ∧
    (¬ (cfg.min_iterations ≤ st.iterations ∧
        q - st.previous_score < cfg.improvement_threshold) →
      shouldContinue cfg st = .ok (true, { st with previous_score := q })) ∧
    reflectAndImprove oracleDiminishing defaultConfig "c0" =
      { final_content := "c0", iterations := 0, final_score := 0 } := by
  refine ⟨?_, ?_, by decide⟩
  · intro hmin hdiff
    unfold shouldContinue
    rw [if_neg (by omega), hev]
    simp [EvalRecord.isTruthy, EvalRecord.scoreValue, not_le.2 hq, hmin, hdiff]
  · intro hnot
    unfold shouldContinue
    rw [if_neg (by omega), hev]
    simp [EvalRecord.isTruthy, EvalRecord.scoreValue, not_le.2 hq, hnot]

/-- Witness for C4 at a concrete state at the floor with gain
`0.1 < 0.2`. -/
theorem diminishing_returns_c4_witness :
    (stDim61.iterations < defaultConfig.max_iterations ∧
     stDim61.evaluation = some (.parsed (some (mkRat 61 10)) 0) ∧
     mkRat 61 10 < 9 ∧
     defaultConfig.min_iterations ≤ stDim61.iterations ∧
     mkRat 61 10 - stDim61.previous_score < defaultConfig.improvement_threshold) ∧
    shouldContinue defaultConfig stDim61 = .ok (false, stDim61) :=
  ⟨⟨by decide, by decide, by with_unfolding_all decide, by decide,
    by with_unfolding_all decide⟩,
   (diminishing_returns_c4 defaultConfig stDim61 (mkRat 61 10) 0 (by decide)
      (by decide) (by with_unfolding_all decide)).1 (by decide)
      (by with_unfolding_all decide)⟩

/-- C5: unconditional commit.  Across one cycle, the Analyzer and the
Improver leave `content` and `iterations` untouched; whenever the
Evaluator step completes (decoded record or parse failure alike) it
sets `content` to the Improver's pending `improved_content` and
increments `iterations` by exactly one. -/
theorem commit_cycle_c5 (ra : OracleReply (List (String × String)))
    (ri : OracleReply ImproveFields) (re : OracleReply EvalFields)
    (st st1 st2 st3 : ReflectionState)
    (h1 : analyzeStep ra st = .ok st1)
    (h2 : improveStep ri st1 = .ok st2)
    (h3 : evaluateStep re st2 = .ok st3) :
    st1.content = st.content ∧ st1.iterations = st.iterations ∧
    st2.content = st.content ∧ st2.iterations = st.iterations ∧
    (∃ ic, st2.improved_content = some ic ∧ st3.content = ic) ∧
    st3.iterations = st.iterations + 1 := by
  obtain ⟨a1, a2, a3, a4, a5⟩ := analyzeStep_frame _ _ _ h1
  obtain ⟨b1, b2, b3, b4, b5, ic, hic⟩ := improveStep_ok _ _ _ h2
  obtain ⟨c1, c2, c3, c4, c5⟩ := evaluateStep_ok _ _ _ h3
  refine ⟨a1, a4, by rw [b1, a1], by rw [b4, a4], ⟨ic, hic, ?_⟩, by omega⟩
  rw [c5, hic]
  rfl

/-- Witness for C5 on a cycle whose Improver and Evaluator responses
both fail to decode: the commit still happens. -/
theorem commit_cycle_c5_witness :
    (analyzeStep (.ok []) (initState "c0") = .ok cycleSt1 ∧
     improveStep (.malformed "raw improve") cycleSt1 = .ok cycleSt2 ∧
     evaluateStep (.malformed "raw eval") cycleSt2 = .ok cycleSt3) ∧
    (∃ ic, cycleSt2.improved_content = some ic ∧ cycleSt3.content = ic) :=
  ⟨⟨by decide, by decide, by decide⟩,
   (commit_cycle_c5 (.ok []) (.malformed "raw improve") (.malformed "raw eval")
      (initState "c0") cycleSt1 cycleSt2 cycleSt3
      (by decide) (by decide) (by decide)).2.2.2.2.1⟩

/-- C6: the Improver's degrade policy.  A decoded record sets
`improved_content` to its `improved_content` field (empty string when
the field is absent); a decode failure falls back to the raw response
text verbatim; in every case `improved_content` is a defined string
afterwards. -/
theorem improver_fallback_c6 (st : ReflectionState)
    (record : ImproveFields) (raw : String) :
    improveStep (.ok record) st =
      .ok { st with improved_content := some (record.improved_content.getD "") } ∧
    improveStep (.ok { improved_content := none }) st =
      .ok { st with improved_content := some "" } ∧
    improveStep (.malformed raw) st =
      .ok { st with improved_content := some raw } :=
  ⟨rfl, rfl, rfl⟩

/-- C7: the claim's scenario on the code.  First conjunct: at the
claim's own "earlier valid score, later parse-failed evaluation" input
(scripted scores `5.0` then a non-decodable response, under
`max_iterations = 2`), the shipped `reflect_and_improve` returns
`("c0", 0, 0.0)` — no evaluation is ever executed, because the
consumer loop crashes during cycle 1, so neither the final committed
content nor any score is reported.  Second conjunct: even the
`_extract_result` component taken alone, applied to the state the
intended loop would reach (content `"c2"`, `iterations = 2`, final
evaluation parse-failed, earlier score 5.0 in `previous_score`),
reports `finalScore = 0.0` — it reads
`float(state.evaluation.get('score', 0.0))` from the final evaluation
record only, never an earlier cycle's score.  Third conjunct: the
degenerate result the driver does return is exactly the initial
state's extraction. -/
theorem final_score_last_eval_c7 :
    reflectAndImprove oracleLateFail cfgTwo "c0" =
      { final_content := "c0", iterations := 0, final_score := 0 } ∧
    extractResult lateFailCommittedState =
      { final_content := "c2", iterations := 2, final_score := 0 } ∧
    extractResult (initState "c0") =
      { final_content := "c0", iterations := 0, final_score := 0 } := by
  refine ⟨by decide, by decide, by decide⟩

/-- C8 counterexample: an oracle whose very first invocation fails
with a transport error.  The generator raises at the analyze node
(first conjunct), but `reflect_and_improve` catches the exception and
hands its caller a normal result extracted from the initial state —
the error is swallowed and reported as a normal result, not
surfaced. -/
theorem transport_swallowed_c8_counterexample :
    (consumeStream oracleDown (initState "init")).1 = .transportAtAnalyze ∧
    reflectAndImprove oracleDown defaultConfig "init" =
      { final_content := "init", iterations := 0, final_score := 0 } := by
  refine ⟨rfl, by decide⟩

/-- C8 (amended): for every oracle — hence under every transport
failure pattern — the caller of `reflect_and_improve` receives the
normal result `(initialContent, 0, 0.0)` extracted from the
never-reassigned `final_state` (first conjunct): the error is always
swallowed.  The only oracle calls any run performs are cycle 1's
analyze and improve; a transport failure there aborts the generator at
exactly that call, without retry and without reaching any later stage
(second and third conjuncts). -/
theorem transport_swallowed_c8 (o : Oracle) (cfg : ReflectionConfig)
    (c : String) :
    reflectAndImprove o cfg c =
      { final_content := c, iterations := 0, final_score := 0 } ∧
    (o.analyzeReply 0 = .transportFailure →
      (consumeStream o (initState c)).1 = .transportAtAnalyze) ∧
    (o.analyzeReply 0 ≠ .transportFailure →
      o.improveReply 0 = .transportFailure →
      (consumeStream o (initState c)).1 = .transportAtImprove) := by
  refine ⟨reflectAndImprove_eq o cfg c, ?_, ?_⟩
  · intro h
    exact consumeStream_analyze_fail o (initState c) h
  · intro h1 h2
    exact consumeStream_improve_fail o (initState c) h1 h2

/-- Witness for C8 (amended) at an oracle whose cycle-1 Improver call
is the one that fails. -/
theorem transport_swallowed_c8_witness :
    (oracleImproveDown.analyzeReply 0 ≠ .transportFailure ∧
     oracleImproveDown.improveReply 0 = .transportFailure) ∧
    (consumeStream oracleImproveDown (initState "x")).1 =
      .transportAtImprove :=
  ⟨⟨by decide, rfl⟩,
   (transport_swallowed_c8 oracleImproveDown defaultConfig "x").2.2
     (by decide) rfl⟩

/-- C9: determinism.  Proved in a strong form: the result of
`reflect_and_improve` is identical across *all* oracles and
configurations for a given initial content (the shipped driver's
result never depends on them), so in particular two runs with the same
deterministic oracle yield identical `ReflectionResult`s.  With the
oracle that returns the same already-optimal content scoring 10 on
cycle 1, both runs return the identical result — which is the
degenerate `("draft", 0, 0.0)`, not the intended `("draft", 1, 10.0)`,
since the consumer loop crashes before any evaluation. -/
theorem deterministic_run_c9 (o o2 : Oracle)
    (cfg cfg2 : ReflectionConfig) (c : String) :
    reflectAndImprove o cfg c = reflectAndImprove o2 cfg2 c ∧
    reflectAndImprove oracle10 defaultConfig "draft" =
      { final_content := "draft", iterations := 0, final_score := 0 } := by
  refine ⟨?_, by decide⟩
  rw [reflectAndImprove_eq, reflectAndImprove_eq]

/-- C10: the convergence policy's frame.  Whenever `_should_continue`
returns (either verdict), every state field except `previous_score` —
`content`, `analysis`, `improved_content`, `evaluation`, `iterations`
— is unchanged. -/
theorem policy_frame_c10 (cfg : ReflectionConfig) (st : ReflectionState)
    (b : Bool) (st' : ReflectionState)
    (h : shouldContinue cfg st = .ok (b, st')) :
    st'.content = st.content ∧ st'.analysis = st.analysis ∧
    st'.improved_content = st.improved_content ∧
    st'.evaluation = st.evaluation ∧ st'.iterations = st.iterations := by
  obtain ⟨h1, h2, h3, h4, h5, _⟩ := shouldContinue_ok cfg st b st' h
  exact ⟨h1, h2, h3, h4, h5⟩

/-- Witness for C10 at a concrete state where the policy does update
`previous_score` (continue verdict): all other fields agree. -/
theorem policy_frame_c10_witness :
    shouldContinue defaultConfig stContinue5 =
      .ok (true, { stContinue5 with previous_score := 5 }) ∧
    (({ stContinue5 with previous_score := (5 : ℚ) }).content = stContinue5.content ∧
     ({ stContinue5 with previous_score := (5 : ℚ) }).analysis = stContinue5.analysis ∧
     ({ stContinue5 with previous_score := (5 : ℚ) }).improved_content =
       stContinue5.improved_content ∧
     ({ stContinue5 with previous_score := (5 : ℚ) }).evaluation =
       stContinue5.evaluation ∧
     ({ stContinue5 with previous_score := (5 : ℚ) }).iterations =
       stContinue5.iterations) :=
  ⟨by with_unfolding_all decide,
   policy_frame_c10 defaultConfig stContinue5 true
     { stContinue5 with previous_score := 5 } (by with_unfolding_all decide)⟩
